import Mathlib

/-!
Verification of the `ActiveWindowMonitor` subsystem
(repository `typologist/activeWindowMonitor`).

This file gives a shallow embedding of the monitoring state machine in
`ActiveWindowMonitor.ts` and of the sampling tick of `MouseChecker.ts`,
and proves properties of the event stream they produce.

Modelling conventions, matching the TypeScript source:

* Machine integers (window ids, coordinates) are `Int`; no arithmetic is
  performed on them, only equality tests, so overflow is irrelevant.
* The TS field `isUserAwake : boolean | null` is `Option Bool`; the value
  `none` stands for both `null` and the initial `undefined`, which are
  indistinguishable in every read the source performs on the field
  (`!this.isUserAwake` and `this.isUserAwake === false`).
* The TS field `currentState : string` takes only the values `"start"`,
  `"stop"` and the initial `undefined`, modelled as a three-valued type.
* Promise settlement, timer firing and user API calls are modelled as a
  set of atomic actions executed by a nondeterministic scheduler; a trace
  is a list of actions.  Node runs JS callbacks to completion, so each
  synchronous stretch of the source (up to the single `await`) is one
  atomic action.
-/

set_option autoImplicit false

/-! ### JavaScript values and `json-stringify-safe`

The rejection value of the window query is an arbitrary JS value; the
monitor compares rejection values with `stringify(error) !== stringify(this.lastError)`
where `stringify` is `json-stringify-safe` (plain `JSON.stringify` plus
cycle handling; our values are finite trees, so it behaves as
`JSON.stringify`).  String escaping inside `JSON.stringify` is elided:
it is injective on strings and never compared against structure.
-/

/-- A (finite, acyclic) JavaScript value, as far as `JSON.stringify`
distinguishes them: `undefined`, `null`, booleans, integer numbers,
strings, arrays and plain objects with ordered fields. -/
inductive JsVal where
  | undef : JsVal
  | null : JsVal
  | bool (b : Bool) : JsVal
  | num (n : Int) : JsVal
  | str (s : String) : JsVal
  | arr (elems : List JsVal) : JsVal
  | obj (fields : List (String × JsVal)) : JsVal

mutual

/-- `JSON.stringify` on a defined value (called only beneath the
top-level `undefined` check): `undefined` inside an array prints as
`null`, `undefined`-valued object fields are skipped. -/
def jsStrVal : JsVal → String
  | .undef => "null"
  | .null => "null"
  | .bool b => cond b "true" "false"
  | .num n => toString n
  | .str s => "\"" ++ s ++ "\""
  | .arr elems => "[" ++ String.intercalate "," (jsStrList elems) ++ "]"
  | .obj fields => "\x7b" ++ String.intercalate "," (jsStrFields fields) ++ "\x7d"

/-- Rendered elements of a JSON array. -/
def jsStrList : List JsVal → List String
  | [] => []
  | v :: rest => jsStrVal v :: jsStrList rest

/-- Rendered fields of a JSON object; fields whose value is `undefined`
are skipped, exactly as `JSON.stringify` does. -/
def jsStrFields : List (String × JsVal) → List String
  | [] => []
  | (_, .undef) :: rest => jsStrFields rest
  | (k, v) :: rest => ("\"" ++ k ++ "\":" ++ jsStrVal v) :: jsStrFields rest

end

/-- `stringify(v)` from `json-stringify-safe`: `JSON.stringify` returns
the JS value `undefined` (not a string) when applied to `undefined`,
modelled as `none`. -/
def jsStringify : JsVal → Option String
  | .undef => none
  | v => some (jsStrVal v)

/-! ### `MouseChecker.ts`

```ts
start() {
  this.mousePositionInterval = setInterval(() => {
    const mousePos = screen.getCursorScreenPoint();
    if (
      !this.lastMousePos ||
      (mousePos.x !== this.lastMousePos.x && mousePos.y !== this.lastMousePos.y)
    ) {
      this.emit('mousemove');
      this.lastMousePos = mousePos;
    }
  }, 2000);
}
```
-/

/-- A cursor position as returned by `screen.getCursorScreenPoint()`. -/
structure Point where
  x : Int
  y : Int
deriving DecidableEq, Repr

/-- The retained state of `MouseChecker`: the last sample kept by the
interval callback (`undefined` before the first tick). -/
structure MouseCheckerState where
  lastMousePos : Option Point
deriving DecidableEq, Repr

namespace MouseChecker

/-- One tick of the `setInterval` callback installed by
`MouseChecker.start()`, given the cursor position sampled at that tick.
Returns the new retained state and whether `mousemove` was emitted. -/
def sampleTick (st : MouseCheckerState) (mousePos : Point) :
    MouseCheckerState × Bool :=
  match st.lastMousePos with
  | none => ({ lastMousePos := some mousePos }, true)
  | some last =>
    if mousePos.x ≠ last.x ∧ mousePos.y ≠ last.y then
      ({ lastMousePos := some mousePos }, true)
    else
      (st, false)

end MouseChecker

/-! ### `ActiveWindow.ts` data model

Only `id` and `url` are ever read by the monitor
(`activeWindowChanged` / `activeWindowOrUrlChanged`); `title` and the
owner name are the remaining fields written by `resetLastWindow`.  The
other `ActiveWindow` fields (`bounds`, `memoryUsage`, `platform`,
owner `processId`/`path`) are carried by real snapshots but never read
or written by the monitor, so they are elided from the embedding. -/

/-- A window snapshot (`ActiveWindow` in `ActiveWindow.ts`). `url` is
`none` when the field is absent (`undefined`). -/
structure ActiveWindow where
  id : Int
  title : String
  url : Option String
  ownerName : String
deriving DecidableEq, Repr

/-- The value of the TS field `currentState : string`: it is `undefined`
until the first `start()` and afterwards one of the literals `"start"`
(`ActiveWindowMonitor.START`) and `"stop"` (`ActiveWindowMonitor.STOP`). -/
inductive LifeState where
  | START : LifeState
  | STOP : LifeState
  | UNSET : LifeState
deriving DecidableEq, Repr

/-- One call of `this.emit(...)` on the monitor, with its payload. -/
inductive Event where
  | start : Event
  | stop : Event
  | check : Event
  | windowchange (w : ActiveWindow) : Event
  | windoworurlchange (w : ActiveWindow) : Event
  | windowinactive (msg : String) : Event
  | idle : Event
  | awake : Event
  | error (e : JsVal) : Event

/-- Constructor arguments of the monitor: `checkInterval` (default 3000)
and `idleAfter` (default `IDLE_AFTER_MS` = 5 minutes), in milliseconds. -/
structure Config where
  checkInterval : Nat := 3000
  idleAfter : Nat := 1000 * 60 * 5
deriving DecidableEq, Repr

/-- The monitor state plus the scheduler-visible resources it owns.

Timer bookkeeping: `this.checkTimeout` stores the id of the most
recently armed reschedule timer.  Because a stray `this.once('check', ...)`
hook can arm a timer while a previous one is still live (the field is
overwritten, orphaning the live timer), live reschedule timers are
counted (`checkTimers`) and `storedCheckLive` records whether the id
currently stored in `checkTimeout` belongs to a live timer — that is the
only timer `clearTimeout(this.checkTimeout)` can cancel.  At most one
idle timer is ever live (`awakeUser` clears before re-arming), so the
idle timer is `none` or `some d` with `d` the duration it was armed for.

`pending` counts window queries that have been issued and not yet
settled; `onceCheckHooks` counts registered `once('check')` reschedule
listeners; `destroyed` records that `destroy()` removed the monitor's
listeners (including the `mousemove` subscription installed by the
constructor). -/
structure MonitorState where
  currentState : LifeState
  lastWindow : ActiveWindow
  isUserAwake : Option Bool
  lastError : JsVal
  pending : Nat
  onceCheckHooks : Nat
  checkTimers : Nat
  storedCheckLive : Bool
  idleTimer : Option Nat
  mouseSampling : Bool
  destroyed : Bool

namespace ActiveWindowMonitor

/-- Truthiness of the TS value held by `isUserAwake`
(`boolean | null`, plus the initial `undefined`): only `true` is truthy. -/
def isTruthy (x : Option Bool) : Bool := x == some true

/-- The sentinel built by `resetLastWindow`:
`{ id: -1, title: '', url: undefined, owner: { name: '' } }`. -/
def sentinelWindow : ActiveWindow :=
  { id := -1, title := "", url := none, ownerName := "" }

/-- Monitor state right after the constructor ran: every field except
`lastError = {}` is still `undefined`; `lastWindow` is modelled as the
sentinel because the source never reads it before `setDefaults` or
`resetLastWindow` first assigns it (reads happen only inside `check`,
reachable only through `run`, which requires `currentState === START`,
a value only `setDefaults` writes). -/
def initialState : MonitorState where
  currentState := .UNSET
  lastWindow := sentinelWindow
  isUserAwake := none
  lastError := .obj []
  pending := 0
  onceCheckHooks := 0
  checkTimers := 0
  storedCheckLive := false
  idleTimer := none
  mouseSampling := false
  destroyed := false

/-- `private resetLastWindow()`. -/
def resetLastWindow (s : MonitorState) : MonitorState :=
  { s with lastWindow := sentinelWindow }

/-- `clearTimeout(this.checkTimeout)`: cancels the timer whose id is
stored in the field, if that timer is still live; a cleared or fired id
makes it a no-op.  Orphaned live timers are unaffected. -/
def clearCheckTimeout (s : MonitorState) : MonitorState :=
  if s.storedCheckLive then
    { s with checkTimers := s.checkTimers - 1, storedCheckLive := false }
  else s

/-- `private setDefaults()`:
`currentState = START; isUserAwake = null; resetLastWindow(); clearTimeout(checkTimeout)`.
Note that it touches neither the idle timer nor `lastError`. -/
def setDefaults (s : MonitorState) : MonitorState :=
  clearCheckTimeout
    { s with currentState := .START, isUserAwake := none,
             lastWindow := sentinelWindow }

/-- Effect on the monitor of `this.emit('check')`: every registered
`once('check', () => { this.checkTimeout = setTimeout(this.run, this.checkInterval) })`
hook runs (and unregisters itself), each arming one fresh reschedule
timer; after at least one hook ran, the `checkTimeout` field references
the newest, live timer (any previously stored live timer is orphaned but
stays live). -/
def fireCheckHooks (s : MonitorState) : MonitorState :=
  { s with checkTimers := s.checkTimers + s.onceCheckHooks,
           storedCheckLive := if s.onceCheckHooks = 0 then s.storedCheckLive else true,
           onceCheckHooks := 0 }

/-- `private run()` up to the suspension point: if
`currentState !== START` return; otherwise register the `once('check')`
reschedule hook and call `check()`, whose synchronous prefix issues the
window query (`await this.services.activeWin(...)`) and suspends. -/
def run (s : MonitorState) : MonitorState :=
  if s.currentState = .START then
    { s with onceCheckHooks := s.onceCheckHooks + 1, pending := s.pending + 1 }
  else s

/-- `start = () => { this.setDefaults(); this.services.mouseChecker.start(); this.run(); this.emit('start'); }`. -/
def start (s : MonitorState) : MonitorState × List Event :=
  (run { setDefaults s with mouseSampling := true }, [Event.start])

/-- `stop = () => { ... }`: set `currentState = STOP`, clear both
timers, stop the mouse checker, emit `stop`. -/
def stop (s : MonitorState) : MonitorState × List Event :=
  ({ clearCheckTimeout { s with currentState := .STOP } with
      idleTimer := none, mouseSampling := false }, [Event.stop])

/-- `destroy()`: `this.services.mouseChecker.removeAllListeners(); this.removeAllListeners();`.
Removing the monitor listeners also removes any registered
`once('check')` reschedule hooks; removing the mouse checker listeners
detaches `awakeUser` from `mousemove`. Nothing else is touched. -/
def destroy (s : MonitorState) : MonitorState × List Event :=
  ({ s with onceCheckHooks := 0, destroyed := true }, [])

/-- `private awakeUser = () => { ... }`: the `mousemove` handler. -/
def awakeUser (cfg : Config) (s : MonitorState) : MonitorState × List Event :=
  if !(isTruthy s.isUserAwake) then
    -- `if (this.isUserAwake === false) this.emit('awake')`, then
    -- `this.isUserAwake = true; clearTimeout(this.idleTimeout);
    --  this.idleTimeout = setTimeout(this.idleUser, this.idleAfter);`
    ({ s with isUserAwake := some true, idleTimer := some cfg.idleAfter },
     if s.isUserAwake == some false then [Event.awake] else [])
  else
    (s, [])

/-- `private idleUser = async () => { ... }`: the idle-timer callback body. -/
def idleUser (s : MonitorState) : MonitorState × List Event :=
  (resetLastWindow { s with isUserAwake := some false },
   if s.currentState = .START then [Event.idle] else [])

/-- `private activeWindowChanged(activeWindow)`. -/
def activeWindowChanged (s : MonitorState) (activeWindow : ActiveWindow) : Bool :=
  activeWindow.id != s.lastWindow.id

/-- `private activeWindowOrUrlChanged(activeWindow)`. -/
def activeWindowOrUrlChanged (s : MonitorState) (activeWindow : ActiveWindow) : Bool :=
  let urlChanged := activeWindow.url != s.lastWindow.url
  -- Still check for the window id, in case of changing between
  -- two apps with the same url we still detect the change.
  let windowChanged := activeWindow.id != s.lastWindow.id
  urlChanged || windowChanged

/-- Continuation of `check()` when `await this.services.activeWin(...)`
resolves with `activeWinResult` (`none` models a falsy result: no active
window).  Runs against the monitor state at settlement time. -/
def checkResolve (s : MonitorState) (activeWinResult : Option ActiveWindow) :
    MonitorState × List Event :=
  let s0 := fireCheckHooks s           -- this.emit('check')
  if !(isTruthy s0.isUserAwake) then
    (s0, [Event.check])                -- if (!this.isUserAwake) return
  else
    let s1 := { s0 with isUserAwake := none }  -- this.isUserAwake = null
    match activeWinResult with
    | none =>
      (resetLastWindow s1,
       [Event.check, Event.windowinactive "Active window not detected."])
    | some activeWindow =>
      let changed := activeWindowOrUrlChanged s1 activeWindow
      let s2 := if changed then { s1 with lastWindow := activeWindow } else s1
      let evs :=
        if changed then
          Event.check :: Event.windoworurlchange activeWindow ::
            (if activeWindowChanged s1 activeWindow then
               [Event.windowchange activeWindow]
             else [])
        else [Event.check]
      ({ s2 with lastError := .obj [] }, evs)    -- this.lastError = {}

/-- Continuation of `check()` when the awaited query rejects with
`error`: the `catch` block.  `setDefaults()` (which sets
`currentState = START` again), then `emit('check')`, then the
stringify-based deduplication of the `error` emission. -/
def checkReject (s : MonitorState) (error : JsVal) : MonitorState × List Event :=
  let s1 := fireCheckHooks (setDefaults s)
  if jsStringify error ≠ jsStringify s1.lastError then
    ({ s1 with lastError := error }, [Event.check, Event.error error])
  else
    (s1, [Event.check])

end ActiveWindowMonitor

/-! ### The scheduler

Node's event loop interleaves: user API calls (`start`, `stop`,
`destroy`), the `mousemove` notifications of the mouse checker, the two
timer callbacks, and the settlement of the outstanding window-query
promises.  Each runs to completion, so a trace of the system is a list
of atomic actions, executed when they are enabled (a timer can fire only
while armed, a query can settle only while outstanding). -/

namespace ActiveWindowMonitor

/-- An atomic scheduler action. -/
inductive Action where
  | callStart : Action
  | callStop : Action
  | callDestroy : Action
  | mousemove : Action
  | idleFire : Action
  | checkFire (wasStored : Bool) : Action
  | resolveQ (activeWinResult : Option ActiveWindow) : Action
  | rejectQ (error : JsVal) : Action

/-- Whether an action can physically occur in state `s`.  API calls are
always possible; `mousemove` requires the mouse checker to be sampling;
a timer callback requires a live timer (`checkFire wasStored`
distinguishes firing the timer stored in `checkTimeout` from firing an
orphaned one); a settlement requires an outstanding query. -/
def enabled (s : MonitorState) : Action → Bool
  | .callStart => true
  | .callStop => true
  | .callDestroy => true
  | .mousemove => s.mouseSampling
  | .idleFire => s.idleTimer.isSome
  | .checkFire wasStored =>
    if wasStored then s.storedCheckLive
    else decide ((if s.storedCheckLive then 1 else 0) < s.checkTimers)
  | .resolveQ _ => decide (0 < s.pending)
  | .rejectQ _ => decide (0 < s.pending)

/-- The effect of one enabled action: the successor state and the events
emitted during it. -/
def applyA (cfg : Config) (s : MonitorState) : Action → MonitorState × List Event
  | .callStart => start s
  | .callStop => stop s
  | .callDestroy => destroy s
  | .mousemove =>
    -- after destroy() the mousemove listener is detached, so the tick
    -- reaches no handler on the monitor
    if s.destroyed then (s, []) else awakeUser cfg s
  | .idleFire =>
    -- the single-shot idle timer is spent, then idleUser runs
    idleUser { s with idleTimer := none }
  | .checkFire wasStored =>
    -- the fired timer is spent (if it was the stored one, the stored id
    -- is now dead); its callback is `this.run`
    (run { s with checkTimers := s.checkTimers - 1,
                  storedCheckLive := s.storedCheckLive && !wasStored }, [])
  | .resolveQ activeWinResult =>
    checkResolve { s with pending := s.pending - 1 } activeWinResult
  | .rejectQ error =>
    checkReject { s with pending := s.pending - 1 } error

/-- Execute a list of actions from `s`, skipping actions that are not
enabled (a timer that is not armed cannot fire, a settled query cannot
settle again), collecting all emitted events in order. -/
def execFrom (cfg : Config) (s : MonitorState) : List Action → MonitorState × List Event
  | [] => (s, [])
  | a :: rest =>
    if enabled s a then
      ((execFrom cfg (applyA cfg s a).1 rest).1,
       (applyA cfg s a).2 ++ (execFrom cfg (applyA cfg s a).1 rest).2)
    else
      execFrom cfg s rest

/-- Execute a trace from the freshly constructed monitor. -/
def execTrace (cfg : Config) (acts : List Action) : MonitorState × List Event :=
  execFrom cfg initialState acts

/-- A usage restriction on traces: `start()` is never called while a
window query is outstanding. -/
def startSafeFrom (cfg : Config) (s : MonitorState) : List Action → Bool
  | [] => true
  | a :: rest =>
    (match a with
     | .callStart => s.pending == 0
     | _ => true) &&
    startSafeFrom cfg (if enabled s a then (applyA cfg s a).1 else s) rest

/-- Traces that never call `start()` at all. -/
def noStart (acts : List Action) : Bool :=
  acts.all fun a => match a with
    | .callStart => false
    | _ => true

end ActiveWindowMonitor

namespace ActiveWindowMonitor

/-- The bookkeeping invariant of the self-rescheduling loop, maintained
as long as `start()` is never called while a query is outstanding: the
registered reschedule hooks never exceed the outstanding queries, at
most one of (outstanding query, live reschedule timer) exists, and the
`checkTimeout` field references a live timer exactly when one live
reschedule timer exists. -/
def MonitorInv (s : MonitorState) : Prop :=
  s.onceCheckHooks ≤ s.pending ∧
  s.pending + s.checkTimers ≤ 1 ∧
  s.checkTimers = (if s.storedCheckLive then 1 else 0)

/-- A state in which the check loop is dead: no outstanding query, no
registered reschedule hook, no live reschedule timer.  From such a
state, no action other than a further `start()` can ever issue a window
query again. -/
def LoopDead (s : MonitorState) : Prop :=
  s.pending = 0 ∧ s.onceCheckHooks = 0 ∧ s.checkTimers = 0 ∧
  s.storedCheckLive = false

end ActiveWindowMonitor

/-- The configuration the test suite uses: `CHECK_MS = 100`,
`IDLE_MS = 1000`. -/
def testConfig : Config := { checkInterval := 100, idleAfter := 1000 }

/-- A concrete browser-like window snapshot used as a query result in
counterexample traces. -/
def windowA : ActiveWindow :=
  { id := 7, title := "Editor", url := some "https://a.example", ownerName := "app" }

/-! ### Helper lemmas -/

namespace ActiveWindowMonitor

/-- Scheduler bookkeeping performed by a resolving settlement: the
`emit('check')` turns every registered reschedule hook into a live
reschedule timer; nothing else in `checkResolve` touches the
bookkeeping fields. -/
theorem checkResolve_book (s : MonitorState) (res : Option ActiveWindow) :
    (checkResolve s res).1.pending = s.pending ∧
    (checkResolve s res).1.onceCheckHooks = 0 ∧
    (checkResolve s res).1.checkTimers = s.checkTimers + s.onceCheckHooks ∧
    (checkResolve s res).1.storedCheckLive =
      (if s.onceCheckHooks = 0 then s.storedCheckLive else true) := by
  rcases res with _ | w <;>
    simp only [checkResolve, fireCheckHooks, resetLastWindow,
               activeWindowOrUrlChanged, activeWindowChanged] <;>
    split_ifs <;> simp_all

/-- Scheduler bookkeeping performed by a rejecting settlement:
`setDefaults` cancels the stored reschedule timer (there is none in
reachable states with an outstanding query), then `emit('check')` turns
every registered hook into a live timer. -/
theorem checkReject_book (s : MonitorState) (e : JsVal) :
    (checkReject s e).1.pending = s.pending ∧
    (checkReject s e).1.onceCheckHooks = 0 ∧
    (checkReject s e).1.checkTimers =
      (if s.storedCheckLive then s.checkTimers - 1 else s.checkTimers) + s.onceCheckHooks ∧
    (checkReject s e).1.storedCheckLive = (if s.onceCheckHooks = 0 then false else true) := by
  simp only [checkReject, fireCheckHooks, setDefaults, clearCheckTimeout]
  split_ifs <;> simp_all

set_option maxHeartbeats 1000000 in
/-- Every enabled action preserves `MonitorInv`, provided `start()` is
only called with no query outstanding. -/
theorem inv_step (cfg : Config) (s : MonitorState) (a : Action) (hInv : MonitorInv s)
    (hstart : a = Action.callStart → s.pending = 0) :
    MonitorInv (if enabled s a then (applyA cfg s a).1 else s) := by
  obtain ⟨h1, h2, h3⟩ := hInv
  split
  case isFalse => exact ⟨h1, h2, h3⟩
  case isTrue henabled =>
    cases a
    case callStart =>
      have hp : s.pending = 0 := hstart rfl
      have hh : s.onceCheckHooks = 0 := by omega
      simp only [applyA, start, run, setDefaults, clearCheckTimeout, MonitorInv]
      split_ifs with hsl <;> simp_all
    case callStop =>
      simp only [applyA, stop, clearCheckTimeout, MonitorInv]
      split_ifs with hsl <;> simp_all
    case callDestroy =>
      simp only [applyA, destroy, MonitorInv]
      refine ⟨by omega, h2, h3⟩
    case mousemove =>
      simp only [applyA, awakeUser, isTruthy, MonitorInv]
      split_ifs <;> simp_all
    case idleFire =>
      simp only [applyA, idleUser, resetLastWindow, MonitorInv]
      exact ⟨h1, h2, h3⟩
    case checkFire wasStored =>
      simp only [enabled] at henabled
      simp only [applyA, run, MonitorInv]
      rcases hsl : s.storedCheckLive <;> rcases hws : wasStored <;>
        simp [hsl, hws] at henabled ⊢ <;> split_ifs <;> simp_all
    case resolveQ res =>
      simp only [enabled, decide_eq_true_eq] at henabled
      simp only [applyA]
      obtain ⟨hbp, hbh, hbt, hbs⟩ :=
        checkResolve_book { s with pending := s.pending - 1 } res
      simp only at hbp hbh hbt hbs
      have hsl : s.storedCheckLive = false := by
        rcases hsl : s.storedCheckLive
        · rfl
        · rw [hsl] at h3; simp at h3; omega
      have h3z : s.checkTimers = 0 := by rw [hsl] at h3; simpa using h3
      refine ⟨?_, ?_, ?_⟩
      · rw [hbh]; omega
      · rw [hbp, hbt]; omega
      · rw [hbt, hbs, hsl]
        by_cases hk : s.onceCheckHooks = 0 <;> simp [hk] <;> omega
    case rejectQ e =>
      simp only [enabled, decide_eq_true_eq] at henabled
      simp only [applyA]
      obtain ⟨hbp, hbh, hbt, hbs⟩ :=
        checkReject_book { s with pending := s.pending - 1 } e
      simp only at hbp hbh hbt hbs
      have hsl : s.storedCheckLive = false := by
        rcases hsl : s.storedCheckLive
        · rfl
        · rw [hsl] at h3; simp at h3; omega
      have h3z : s.checkTimers = 0 := by rw [hsl] at h3; simpa using h3
      refine ⟨?_, ?_, ?_⟩
      · rw [hbh]; omega
      · rw [hbp, hbt, hsl]; simp; omega
      · rw [hbt, hbs, hsl]
        by_cases hk : s.onceCheckHooks = 0 <;> simp [hk] <;> omega

/-- `MonitorInv` holds after executing any trace that never calls
`start()` while a query is outstanding, from any state satisfying it. -/
theorem inv_exec (cfg : Config) (acts : List Action) :
    ∀ s : MonitorState, MonitorInv s → startSafeFrom cfg s acts = true →
      MonitorInv (execFrom cfg s acts).1 := by
  induction acts with
  | nil => intro s h _; exact h
  | cons a rest ih =>
    intro s h hsafe
    simp only [startSafeFrom, Bool.and_eq_true] at hsafe
    obtain ⟨hH, hT⟩ := hsafe
    have hst : a = Action.callStart → s.pending = 0 := by
      intro ha; subst ha; simpa using hH
    have hnext := inv_step cfg s a h hst
    by_cases hen : enabled s a = true
    · rw [if_pos hen] at hnext hT
      simp only [execFrom, hen, if_true]
      exact ih _ hnext hT
    · rw [if_neg hen] at hnext hT
      simp only [execFrom, hen, if_false]
      exact ih _ hnext hT

/-- A dead loop stays dead under every action except a further
`start()`. -/
theorem loopDead_step (cfg : Config) (s : MonitorState) (a : Action)
    (h : LoopDead s) (hns : a ≠ Action.callStart) :
    LoopDead (if enabled s a then (applyA cfg s a).1 else s) := by
  obtain ⟨hp, hh, ht, hsl⟩ := h
  split
  case isFalse => exact ⟨hp, hh, ht, hsl⟩
  case isTrue henabled =>
    cases a
    case callStart => exact absurd rfl hns
    case callStop =>
      simp only [applyA, stop, clearCheckTimeout, LoopDead]
      simp [hsl, hp, hh, ht]
    case callDestroy =>
      simp [applyA, destroy, LoopDead, hp, ht, hsl]
    case mousemove =>
      simp only [applyA, awakeUser, isTruthy, LoopDead]
      split_ifs <;> simp_all
    case idleFire =>
      simp only [applyA, idleUser, resetLastWindow, LoopDead]
      exact ⟨hp, hh, ht, hsl⟩
    case checkFire wasStored =>
      simp only [enabled, hsl, ht] at henabled
      rcases hws : wasStored <;> rw [hws] at henabled <;> simp at henabled
    case resolveQ res =>
      simp only [enabled, hp, decide_eq_true_eq] at henabled
      exact absurd henabled (by omega)
    case rejectQ e =>
      simp only [enabled, hp, decide_eq_true_eq] at henabled
      exact absurd henabled (by omega)

/-- A dead loop stays dead along every trace with no `start()` call: in
particular no window query is ever issued again. -/
theorem loopDead_exec (cfg : Config) (acts : List Action) :
    ∀ s : MonitorState, LoopDead s → noStart acts = true →
      LoopDead (execFrom cfg s acts).1 := by
  induction acts with
  | nil => intro s h _; exact h
  | cons a rest ih =>
    intro s h hns
    simp only [noStart, List.all_cons, Bool.and_eq_true] at hns
    obtain ⟨hH, hT⟩ := hns
    have hne : a ≠ Action.callStart := by
      intro ha; subst ha; simp at hH
    have hnext := loopDead_step cfg s a h hne
    by_cases hen : enabled s a = true
    · rw [if_pos hen] at hnext
      simp only [execFrom, hen, if_true]
      exact ih _ hnext (by simpa [noStart] using hT)
    · rw [if_neg hen] at hnext
      simp only [execFrom, hen, if_false]
      exact ih _ hnext (by simpa [noStart] using hT)

end ActiveWindowMonitor

/-! ### The claims -/

open ActiveWindowMonitor

/-- C1: the claim states that when `stop()` is called while a window
query is outstanding, the query's eventual settlement neither schedules
a new check iteration nor emits `windowchange`/`windoworurlchange`/`windowinactive`,
and that no event beyond `stop` is observable until `start()` is called
again.  The code has no stopped-guard after its `await`: this theorem
evaluates the embedding on the failing traces.  In the first trace
(`start`, activity, `stop`, then the pending query resolves) the
settlement emits `check`, `windoworurlchange` and `windowchange` after
`stop` and arms a reschedule timer.  In the second trace the pending
query rejects after `stop`; the `catch` block's `setDefaults()` even
sets `currentState` back to `START`, resuming the loop. -/
theorem C1_events_after_stop :
    (execTrace testConfig
        [.callStart, .mousemove, .callStop, .resolveQ (some windowA)]).2 =
      [Event.start, Event.stop, Event.check, Event.windoworurlchange windowA,
       Event.windowchange windowA] ∧
    (execTrace testConfig
        [.callStart, .mousemove, .callStop, .resolveQ (some windowA)]).1.checkTimers = 1 ∧
    (execTrace testConfig [.callStart, .callStop, .rejectQ (.str "E1")]).2 =
      [Event.start, Event.stop, Event.check, Event.error (.str "E1")] ∧
    (execTrace testConfig [.callStart, .callStop, .rejectQ (.str "E1")]).1.currentState =
      LifeState.START :=
  ⟨rfl, rfl, rfl, rfl⟩

/-- C2 counterexample: the claim quantifies over every sequence of
`start()`/`stop()` calls; calling `start()` twice in a row (the second
while the first iteration's query is still outstanding) leaves two
window queries outstanding simultaneously. -/
theorem C2_overlap_counterexample :
    (execTrace testConfig [.callStart, .callStart]).1.pending = 2 := rfl

/-- C2, amended: in every trace in which `start()` is never called while
a window query is outstanding, at most one window query is outstanding
at any time (instantiate with any trace prefix), for every interleaving
of `stop()`/`destroy()` calls, activity signals, timer firings and query
settlements. -/
theorem C2_at_most_one_pending (cfg : Config) (acts : List Action)
    (h : startSafeFrom cfg initialState acts = true) :
    (execTrace cfg acts).1.pending ≤ 1 := by
  have hInv : MonitorInv initialState := ⟨Nat.le_refl 0, by decide, rfl⟩
  obtain ⟨-, h2, -⟩ := inv_exec cfg acts initialState hInv h
  simp only [execTrace]
  omega

/-- Witness for C2: a concrete restriction-respecting trace. -/
theorem C2_at_most_one_pending_witness :
    startSafeFrom testConfig initialState [Action.callStart, Action.callStop] = true ∧
    (execTrace testConfig [Action.callStart, Action.callStop]).1.pending ≤ 1 :=
  ⟨rfl, C2_at_most_one_pending testConfig [Action.callStart, Action.callStop] rfl⟩

/-- C3 counterexample: the claim states that the first rejection after
`start()` always emits `error`, for every rejection value.  The error
memory is initialised to the empty object `\x7b\x7d` at construction and
`start()` does not reset it, so a first rejection whose value is the
empty object stringifies identically to the remembered value and is
suppressed: the trace emits no `error` event. -/
theorem C3_first_rejection_counterexample :
    (execTrace testConfig [.callStart, .rejectQ (.obj [])]).2 =
      [Event.start, Event.check] := rfl

/-- C3, amended: when a window query rejects, `error` is emitted with
the rejection value if and only if its `JSON.stringify` rendering
differs from that of the currently remembered last-error (initially the
empty object, reset to the empty object only by a successful gated
iteration that returned a window); when emitted, the value is
remembered, otherwise the memory is unchanged.  In particular the first
rejection after `start()` emits unless the value stringifies to
`"\x7b\x7d"`. -/
theorem C3_error_emission_iff (s : MonitorState) (error : JsVal) :
    (checkReject s error).2 =
      (if jsStringify error ≠ jsStringify s.lastError then
         [Event.check, Event.error error] else [Event.check]) ∧
    (checkReject s error).1.lastError =
      (if jsStringify error ≠ jsStringify s.lastError then error else s.lastError) := by
  have hle : (fireCheckHooks (setDefaults s)).lastError = s.lastError := by
    simp [fireCheckHooks, setDefaults, clearCheckTimeout]
    split <;> rfl
  refine ⟨?_, ?_⟩ <;>
    · simp only [checkReject, hle]
      split <;> simp [hle]

/-- C4 counterexample: the claim states that every iteration whose query
resolves clears the remembered last-error regardless of the gate.  In
this trace a rejection with `"E1"` is remembered, the loop reschedules,
and the next query resolves while the gate is not Awake: the iteration
emits only `check`, leaves the remembered error at `"E1"`, and the
following rejection with `"E1"` is consequently suppressed — the claim
would require it to be reported as new. -/
theorem C4_no_clear_counterexample :
    (execTrace testConfig
        [.callStart, .rejectQ (.str "E1"), .checkFire true, .resolveQ (some windowA),
         .checkFire true, .rejectQ (.str "E1")]).1.lastError = JsVal.str "E1" ∧
    (execTrace testConfig
        [.callStart, .rejectQ (.str "E1"), .checkFire true, .resolveQ (some windowA),
         .checkFire true, .rejectQ (.str "E1")]).2 =
      [Event.start, Event.check, Event.error (.str "E1"), Event.check, Event.check] ∧
    JsVal.str "E1" ≠ JsVal.obj [] :=
  ⟨rfl, rfl, by simp⟩

/-- C4, amended: an iteration whose query resolves clears the remembered
last-error if and only if the idle/awake gate is Awake at processing
time and the query returned a window; in every other resolving iteration
(gate not Awake, or "no window") the remembered error is unchanged. -/
theorem C4_lastError_clearing (s : MonitorState) (activeWinResult : Option ActiveWindow) :
    (checkResolve s activeWinResult).1.lastError =
      if isTruthy s.isUserAwake && activeWinResult.isSome then JsVal.obj []
      else s.lastError := by
  rcases h : s.isUserAwake with _ | b
  · rcases activeWinResult with _ | w <;>
      simp [checkResolve, fireCheckHooks, isTruthy, h, resetLastWindow]
  · cases b
    · rcases activeWinResult with _ | w <;>
        simp [checkResolve, fireCheckHooks, isTruthy, h, resetLastWindow]
    · rcases activeWinResult with _ | w
      · simp [checkResolve, fireCheckHooks, isTruthy, h, resetLastWindow]
      · simp [checkResolve, fireCheckHooks, isTruthy, h]

/-- C5 counterexample: the claim states that `start()` cancels and
re-arms both timers, so an idle timer armed before `start()` cannot fire
in the new session.  `setDefaults()` only cancels the check-reschedule
timer: after `start`, activity (arming the idle timer for `idleAfter`),
and a second `start()`, the idle timer is still armed, and firing it in
the new session emits `idle`. -/
theorem C5_idle_timer_survives_start :
    (execTrace testConfig [.callStart, .mousemove, .callStart]).1.idleTimer =
      some testConfig.idleAfter ∧
    (execTrace testConfig [.callStart, .mousemove, .callStart, .idleFire]).2 =
      [Event.start, Event.start, Event.idle] :=
  ⟨rfl, rfl⟩

/-- C5, amended: `start()` cancels the pending check-reschedule timer
(only), resets last-known-window to the sentinel and the idle/awake gate
to neutral, sets the state to `START`, starts the activity signal, and
launches a fresh check iteration (registering one reschedule hook and
issuing one query); the idle timer is neither cancelled nor re-armed, so
an idle timer armed before `start()` can still fire in the new
session. -/
theorem C5_start_effects (s : MonitorState) :
    (ActiveWindowMonitor.start s).1.idleTimer = s.idleTimer ∧
    (ActiveWindowMonitor.start s).1.lastWindow = sentinelWindow ∧
    (ActiveWindowMonitor.start s).1.isUserAwake = none ∧
    (ActiveWindowMonitor.start s).1.currentState = LifeState.START ∧
    (ActiveWindowMonitor.start s).1.storedCheckLive = false ∧
    (ActiveWindowMonitor.start s).1.checkTimers =
      (if s.storedCheckLive then s.checkTimers - 1 else s.checkTimers) ∧
    (ActiveWindowMonitor.start s).1.pending = s.pending + 1 ∧
    (ActiveWindowMonitor.start s).1.onceCheckHooks = s.onceCheckHooks + 1 ∧
    (ActiveWindowMonitor.start s).1.mouseSampling = true ∧
    (ActiveWindowMonitor.start s).2 = [Event.start] := by
  simp only [ActiveWindowMonitor.start, run, setDefaults, clearCheckTimeout]
  split_ifs <;> simp_all

/-- C6: on a successful query processed while the gate is Awake and a
window is present, `windoworurlchange` is emitted with the new snapshot
iff its `url` or `id` differs from the last-known window; `windowchange`
is additionally emitted with the same snapshot iff the `id` differs (an
`id` change with identical `url` still emits `windoworurlchange`, and a
`url`-only change on the same `id` emits `windoworurlchange` but not
`windowchange`); on any such change the last-known window is replaced by
the new snapshot, otherwise it is kept. -/
theorem C6_change_detection (s : MonitorState) (w : ActiveWindow)
    (h : s.isUserAwake = some true) :
    (Event.windoworurlchange w ∈ (checkResolve s (some w)).2 ↔
       (w.url ≠ s.lastWindow.url ∨ w.id ≠ s.lastWindow.id)) ∧
    (Event.windowchange w ∈ (checkResolve s (some w)).2 ↔ w.id ≠ s.lastWindow.id) ∧
    ((w.url ≠ s.lastWindow.url ∨ w.id ≠ s.lastWindow.id) →
       (checkResolve s (some w)).1.lastWindow = w) ∧
    (¬(w.url ≠ s.lastWindow.url ∨ w.id ≠ s.lastWindow.id) →
       (checkResolve s (some w)).1.lastWindow = s.lastWindow) := by
  by_cases hu : w.url = s.lastWindow.url <;> by_cases hi : w.id = s.lastWindow.id <;>
    simp [checkResolve, activeWindowOrUrlChanged, activeWindowChanged,
          fireCheckHooks, isTruthy, h, hu, hi]

/-- Witness for C6: from an Awake gate and the sentinel last-window, the
query result `windowA` (id 7) triggers a `windowchange` emission. -/
theorem C6_change_detection_witness :
    Event.windowchange windowA ∈
      (checkResolve
        { currentState := .START, lastWindow := sentinelWindow, isUserAwake := some true,
          lastError := .obj [], pending := 0, onceCheckHooks := 0, checkTimers := 0,
          storedCheckLive := false, idleTimer := none, mouseSampling := true,
          destroyed := false } (some windowA)).2 :=
  ((C6_change_detection
      { currentState := .START, lastWindow := sentinelWindow, isUserAwake := some true,
        lastError := .obj [], pending := 0, onceCheckHooks := 0, checkTimers := 0,
        storedCheckLive := false, idleTimer := none, mouseSampling := true,
        destroyed := false } windowA rfl).2.1).mpr (by decide)

/-- C7: a `mousemove` notification while the gate is Idle (`false`) or
Consumed (`null`) sets the gate to Awake and (re)arms the idle timer for
`idleAfter` ms; `awake` is emitted exactly when the prior flag was Idle;
a notification while the gate is already Awake is a complete no-op:
state, timers and event stream are untouched. -/
theorem C7_awakeUser_spec (cfg : Config) (s : MonitorState) :
    awakeUser cfg s =
      if s.isUserAwake = some true then (s, [])
      else ({ s with isUserAwake := some true, idleTimer := some cfg.idleAfter },
            if s.isUserAwake = some false then [Event.awake] else []) := by
  rcases h : s.isUserAwake with _ | b
  · simp [awakeUser, isTruthy, h]
  · cases b <;> simp [awakeUser, isTruthy, h]

/-- C8: an iteration whose query resolves while the gate is not Awake
emits exactly one `check` and nothing else, and performs no change
processing: last-known-window, last-error, the gate and the lifecycle
state are all left untouched, whatever the query returned (a window or
"no window"). -/
theorem C8_gate_blocks (s : MonitorState) (activeWinResult : Option ActiveWindow)
    (h : s.isUserAwake ≠ some true) :
    (checkResolve s activeWinResult).2 = [Event.check] ∧
    (checkResolve s activeWinResult).1.lastWindow = s.lastWindow ∧
    (checkResolve s activeWinResult).1.lastError = s.lastError ∧
    (checkResolve s activeWinResult).1.isUserAwake = s.isUserAwake ∧
    (checkResolve s activeWinResult).1.currentState = s.currentState := by
  simp [checkResolve, fireCheckHooks, isTruthy, h]

/-- Witness for C8: with the gate Idle, a resolving query emits only
`check`. -/
theorem C8_gate_blocks_witness :
    ((some false : Option Bool) ≠ some true) ∧
    (checkResolve
      { currentState := .START, lastWindow := sentinelWindow, isUserAwake := some false,
        lastError := .obj [], pending := 0, onceCheckHooks := 0, checkTimers := 0,
        storedCheckLive := false, idleTimer := some 1000, mouseSampling := true,
        destroyed := false } (some windowA)).2 = [Event.check] :=
  ⟨by decide,
   (C8_gate_blocks
      { currentState := .START, lastWindow := sentinelWindow, isUserAwake := some false,
        lastError := .obj [], pending := 0, onceCheckHooks := 0, checkTimers := 0,
        storedCheckLive := false, idleTimer := some 1000, mouseSampling := true,
        destroyed := false } (some windowA) (by decide)).1⟩

/-- C9: the claim states that a sampling tick emits `mousemove` exactly
when the cursor position changed since the last retained sample.  The
interval callback tests `x !== last.x && y !== last.y` (conjunction, not
disjunction), so a move along a single axis — here from (0,0) to (1,0) —
changes the position but emits nothing and retains no new sample. -/
theorem C9_single_axis_move_missed :
    (MouseChecker.sampleTick { lastMousePos := some { x := 0, y := 0 } }
        { x := 1, y := 0 }).2 = false ∧
    (MouseChecker.sampleTick { lastMousePos := some { x := 0, y := 0 } }
        { x := 1, y := 0 }).1 = { lastMousePos := some { x := 0, y := 0 } } ∧
    ({ x := 1, y := 0 } : Point) ≠ { x := 0, y := 0 } :=
  ⟨rfl, rfl, by decide⟩

/-- C10 counterexample: the claim states that a RUNNING monitor on which
`destroy()` is called continues its check loop and keeps issuing window
queries.  `destroy()` removes all monitor listeners, including the
iteration's own `once('check')` reschedule hook: destroying while the
first query is in flight leaves the monitor RUNNING (`currentState` is
still `START`) but loop-dead — when the query settles, its
`emit('check')` finds no hook, no timer is armed, and no query can ever
be issued again without a new `start()`. -/
theorem C10_destroy_inflight_counterexample :
    LoopDead (execTrace testConfig [.callStart, .callDestroy, .resolveQ (some windowA)]).1 ∧
    (execTrace testConfig [.callStart, .callDestroy, .resolveQ (some windowA)]).1.currentState =
      LifeState.START ∧
    (execTrace testConfig [.callStart, .callDestroy, .resolveQ (some windowA)]).2 =
      [Event.start, Event.check] :=
  ⟨⟨rfl, rfl, rfl, rfl⟩, rfl, rfl⟩

/-- C10, amended: `destroy()` only removes event subscriptions (on the
monitor — including its internal once-per-iteration reschedule hook —
and on the activity signal); it leaves the lifecycle state,
last-known-window, last-error, the gate, both timers, the outstanding
query and the activity-signal sampling unchanged.  Consequently a
monitor destroyed between iterations keeps running its loop, but once a
state is loop-dead (as after destroying with a query in flight, see the
counterexample) no trace without a further `start()` ever issues a query
again. -/
theorem C10_destroy_effects :
    (∀ s : MonitorState,
       (destroy s).1.currentState = s.currentState ∧
       (destroy s).1.lastWindow = s.lastWindow ∧
       (destroy s).1.lastError = s.lastError ∧
       (destroy s).1.isUserAwake = s.isUserAwake ∧
       (destroy s).1.pending = s.pending ∧
       (destroy s).1.checkTimers = s.checkTimers ∧
       (destroy s).1.storedCheckLive = s.storedCheckLive ∧
       (destroy s).1.idleTimer = s.idleTimer ∧
       (destroy s).1.mouseSampling = s.mouseSampling ∧
       (destroy s).1.onceCheckHooks = 0 ∧
       (destroy s).2 = []) ∧
    (∀ (cfg : Config) (acts : List Action) (s : MonitorState),
       LoopDead s → noStart acts = true → (execFrom cfg s acts).1.pending = 0) := by
  refine ⟨fun s => ⟨rfl, rfl, rfl, rfl, rfl, rfl, rfl, rfl, rfl, rfl, rfl⟩, ?_⟩
  intro cfg acts s h hns
  exact (loopDead_exec cfg acts s h hns).1

/-- Witness for C10: the frame property at the fresh monitor, and a
loop-dead state issuing no query along a start-free trace. -/
theorem C10_destroy_effects_witness :
    (destroy initialState).1.currentState = initialState.currentState ∧
    (execFrom testConfig initialState [Action.mousemove]).1.pending = 0 :=
  ⟨(C10_destroy_effects.1 initialState).1,
   C10_destroy_effects.2 testConfig [Action.mousemove] initialState
     ⟨rfl, rfl, rfl, rfl⟩ rfl⟩
